import Mathlib

set_option maxRecDepth 100000

/-!
Verification of the test fixture `src/samples/custom/sm5/opaque_header.h`
of the openfxc-sem repository.

The repository consists of a single 8-line C-style header file used as a
preprocessor test fixture.  We embed the artifact twice, both directly from
the source file:

* `opaqueHeaderLines` / `opaqueHeaderContent` — the literal text of the file,
  line by line and as one string (the file has no trailing newline).
* `opaqueHeaderDecls` — the file parsed as a list of C top-level items
  (two comment lines, one `typedef struct`, one blank separator absorbed
  by layout, and one `static const int` variable declaration), over a small
  C declaration model rich enough to express the absence claims
  (function definitions, statements, preprocessor directives, mutation).

A separate definition `specSection6Block` transcribes the six-line block
reproduced in spec section 6, to be compared with the file's actual bytes.
-/

/-- The lines of `src/samples/custom/sm5/opaque_header.h`, in order.
The file ends without a trailing newline, so it has exactly these 8 lines. -/
def opaqueHeaderLines : List String :=
  [ "// Non-HLSL helper header that should be ignored by the preprocessor."
  , "// Contains C-style declarations that are not valid HLSL."
  , "typedef struct _OpaqueItem \x7b"
  , "    int count;"
  , "    int flags;"
  , "\x7d OpaqueItem;"
  , ""
  , "static const int gOpaqueValue = 7;" ]

/-- The full byte content of the file: its lines joined by newline
(no trailing newline, per the file's actual bytes). -/
def opaqueHeaderContent : String :=
  String.intercalate "\n" opaqueHeaderLines

/-- The six-line block reproduced verbatim in spec section 6
("EXTERNAL INTERFACES"), joined by newline. -/
def specSection6Block : String :=
  String.intercalate "\n"
    [ "typedef struct _OpaqueItem \x7b"
    , "    int count;"
    , "    int flags;"
    , "\x7d OpaqueItem;"
    , ""
    , "static const int gOpaqueValue = 7;" ]

/-- The two `//` comment lines that open the file, together with the
newline separating them from the declarations that follow. -/
def leadingCommentText : String :=
  "// Non-HLSL helper header that should be ignored by the preprocessor.\n" ++
  "// Contains C-style declarations that are not valid HLSL.\n"

/-- A line is a C preprocessor directive when its first character is `#`. -/
def isDirectiveLine (l : String) : Bool :=
  match l.data with
  | [] => false
  | c :: _ => c == '#'

/-! ## A small C declaration model

Types, fields, statements and top-level items, rich enough to state what the
file contains and what it does not contain. -/

/-- C types occurring in (or relevant to) the header.  `cInt` is the C `int`
type; `named` covers typedef names such as `OpaqueItem`; `structTag` covers
`struct _OpaqueItem` references. -/
inductive CType where
  | cInt : CType
  | named : String → CType
  | structTag : String → CType
deriving DecidableEq, Repr

/-- Bit width of a C type under the ILP32/LP64 data models the fixture's
repository targets: `int` is 32 bits wide.  Aggregate and named types have
no intrinsic width here. -/
def CType.bitWidth : CType → Option Nat
  | .cInt => some 32
  | .named _ => none
  | .structTag _ => none

/-- The values admissible for an object of a given C type: for `int`, any
32-bit two's-complement integer; the file states no further constraint. -/
def CType.admits : CType → Int → Prop
  | .cInt, v => -(2 ^ 31) ≤ v ∧ v < 2 ^ 31
  | .named _, _ => True
  | .structTag _, _ => True

instance (t : CType) (v : Int) : Decidable (t.admits v) := by
  cases t <;> simp [CType.admits] <;> infer_instance

/-- A struct member: a name and a type. -/
structure CField where
  name : String
  type : CType
deriving DecidableEq, Repr

/-- C statements, as they could occur in a function body or (illegally, at
top level) as executable text.  The header contains none, but the model must
be able to express them for the absence claims to have content. -/
inductive CStmt where
  | assign : String → Int → CStmt
  | call : String → CStmt
  | ifStmt : CStmt → CStmt → CStmt
  | whileStmt : CStmt → CStmt
  | ret : Int → CStmt
deriving DecidableEq, Repr

/-- A variable declaration: name, type, storage/qualifier flags, and an
integer initialiser. -/
structure VarDecl where
  name : String
  type : CType
  isStatic : Bool
  isConst : Bool
  init : Int
deriving DecidableEq, Repr

/-- Top-level items of a C translation unit, as needed for this header:
comment lines, a `typedef struct TAG { fields } NAME;` declaration, a
variable declaration, plus the forms the header does *not* contain
(function definitions, stray statements, preprocessor directives). -/
inductive CDecl where
  | commentLine : String → CDecl
  | typedefStruct : String → String → List CField → CDecl
  | varDecl : VarDecl → CDecl
  | funcDef : String → List CField → List CStmt → CDecl
  | stmtItem : CStmt → CDecl
  | directive : String → CDecl
deriving DecidableEq, Repr

/-- `src/samples/custom/sm5/opaque_header.h`, parsed: two comment lines,
the typedef of `struct _OpaqueItem` as `OpaqueItem` with integer fields
`count` and `flags`, and the `static const int gOpaqueValue = 7;`
declaration.  (The blank line 7 is a separator, not a declaration.) -/
def opaqueHeaderDecls : List CDecl :=
  [ .commentLine "Non-HLSL helper header that should be ignored by the preprocessor."
  , .commentLine "Contains C-style declarations that are not valid HLSL."
  , .typedefStruct "_OpaqueItem" "OpaqueItem"
      [⟨"count", .cInt⟩, ⟨"flags", .cInt⟩]
  , .varDecl ⟨"gOpaqueValue", .cInt, true, true, 7⟩ ]

/-- Is a top-level item a struct-type declaration? -/
def CDecl.isTypeDecl : CDecl → Bool
  | .typedefStruct _ _ _ => true
  | _ => false

/-- Is a top-level item a constant declaration (a `const`-qualified
variable declaration)? -/
def CDecl.isConstDecl : CDecl → Bool
  | .varDecl v => v.isConst
  | _ => false

/-- Is a top-level item any variable declaration? -/
def CDecl.isVarDecl : CDecl → Bool
  | .varDecl _ => true
  | _ => false

/-- Is a top-level item a function definition? -/
def CDecl.isFuncDef : CDecl → Bool
  | .funcDef _ _ _ => true
  | _ => false

/-- Is a top-level item an executable statement? -/
def CDecl.isStmtItem : CDecl → Bool
  | .stmtItem _ => true
  | _ => false

/-- Is a top-level item a preprocessor directive? -/
def CDecl.isDirective : CDecl → Bool
  | .directive _ => true
  | _ => false

/-- Is a top-level item a comment line? -/
def CDecl.isComment : CDecl → Bool
  | .commentLine _ => true
  | _ => false

/-- Does a top-level item declare the given name (as a typedef name,
struct tag, variable or function)? -/
def CDecl.declares (d : CDecl) (n : String) : Bool :=
  match d with
  | .commentLine _ => false
  | .typedefStruct tag td _ => tag == n || td == n
  | .varDecl v => v.name == n
  | .funcDef f _ _ => f == n
  | .stmtItem _ => false
  | .directive _ => false

/-- Does a statement mutate (assign to) the given name? -/
def CStmt.mutates : CStmt → String → Bool
  | .assign x _, n => x == n
  | .call _, _ => false
  | .ifStmt s t, n => s.mutates n || t.mutates n
  | .whileStmt s, n => s.mutates n
  | .ret _, _ => false

/-- Does a top-level item mutate the given name?  Only executable
statements (at top level or inside a function body) can. -/
def CDecl.mutatesName (d : CDecl) (n : String) : Bool :=
  match d with
  | .stmtItem s => s.mutates n
  | .funcDef _ _ body => body.any (fun s => s.mutates n)
  | _ => false

/-- Does a top-level item use the given type anywhere *other than* as the
subject of its own type declaration: as the type of a variable, a struct
field, or a function parameter? -/
def CDecl.usesType (d : CDecl) (t : CType) : Bool :=
  match d with
  | .commentLine _ => false
  | .typedefStruct _ _ fields => fields.any (fun f => f.type == t)
  | .varDecl v => v.type == t
  | .funcDef _ params _ => params.any (fun f => f.type == t)
  | .stmtItem _ => false
  | .directive _ => false

/-- The initialised value of the named constant, when the file declares it. -/
def declaredValue (decls : List CDecl) (n : String) : Option Int :=
  match decls with
  | [] => none
  | .varDecl v :: rest => if v.name == n then some v.init else declaredValue rest n
  | _ :: rest => declaredValue rest n

/-! ## Claims -/

/-- C1 (counterexample): the full byte content of the file is *not* equal,
byte for byte, to the six-line block reproduced in spec section 6 — the file
opens with two comment lines the block lacks. -/
theorem c1_content_ne_spec_block : opaqueHeaderContent ≠ specSection6Block := by
  decide

/-- C1 (amended): the byte content of the file is exactly the two leading
`//` comment lines followed by the six-line block reproduced in spec
section 6, with nothing after the block. -/
theorem c1_content_is_comments_then_spec_block :
    opaqueHeaderContent = leadingCommentText ++ specSection6Block := by
  decide

/-- C2: the file is exactly 8 lines long and contains exactly two
declarations: one struct type declaration and one constant declaration. -/
theorem c2_eight_lines_two_decls :
    opaqueHeaderLines.length = 8 ∧
    (opaqueHeaderDecls.filter CDecl.isTypeDecl).length = 1 ∧
    (opaqueHeaderDecls.filter CDecl.isConstDecl).length = 1 ∧
    opaqueHeaderDecls.all
      (fun d => d.isComment || d.isTypeDecl || d.isConstDecl) := by
  decide

/-- C3: the struct type declared in the file has tag `_OpaqueItem`,
typedef name `OpaqueItem`, and exactly two fields, both of integer type. -/
theorem c3_struct_two_int_fields :
    opaqueHeaderDecls.filter CDecl.isTypeDecl =
      [.typedefStruct "_OpaqueItem" "OpaqueItem"
        [⟨"count", .cInt⟩, ⟨"flags", .cInt⟩]] ∧
    [CField.mk "count" .cInt, CField.mk "flags" .cInt].all
      (fun f => f.type == .cInt) := by
  decide

/-- C4: the file declares exactly one constant, `gOpaqueValue`, and it is
`const`-qualified and of integer type. -/
theorem c4_single_const_int :
    opaqueHeaderDecls.filter CDecl.isVarDecl =
      [.varDecl ⟨"gOpaqueValue", .cInt, true, true, 7⟩] ∧
    (VarDecl.mk "gOpaqueValue" .cInt true true 7).isConst = true ∧
    (VarDecl.mk "gOpaqueValue" .cInt true true 7).type = .cInt := by
  decide

/-- C5: the type `OpaqueItem` (and equally `struct _OpaqueItem`) is used by
no item of the file — no variable, field or parameter has that type; it
appears only as the subject of its own declaration. -/
theorem c5_opaque_item_never_instantiated :
    opaqueHeaderDecls.all
      (fun d => !(d.usesType (.named "OpaqueItem")) &&
                !(d.usesType (.structTag "_OpaqueItem"))) := by
  decide

/-- C6: both fields of the record type, `count` and `flags`, have type
`int`, which is 32 bits wide, and every 32-bit integer value is admissible
for each of them — the file imposes no further constraint. -/
theorem c6_fields_arbitrary_int32 :
    ∀ f ∈ [CField.mk "count" .cInt, CField.mk "flags" .cInt],
      opaqueHeaderDecls.contains
        (.typedefStruct "_OpaqueItem" "OpaqueItem"
          [⟨"count", .cInt⟩, ⟨"flags", .cInt⟩]) ∧
      f.type = .cInt ∧
      f.type.bitWidth = some 32 ∧
      ∀ v : Int, -(2 ^ 31) ≤ v → v < 2 ^ 31 → f.type.admits v := by
  intro f hf
  refine ⟨by decide, ?_, ?_, ?_⟩ <;>
    simp only [List.mem_cons, List.mem_singleton, List.not_mem_nil, or_false] at hf <;>
    rcases hf with rfl | rfl
  · rfl
  · rfl
  · rfl
  · rfl
  · intro v h1 h2; exact ⟨h1, h2⟩
  · intro v h1 h2; exact ⟨h1, h2⟩

/-- C6 witness: at the concrete field `count` and the concrete value 7,
the admissibility granted by `c6_fields_arbitrary_int32` holds. -/
theorem c6_fields_arbitrary_int32_witness :
    (CField.mk "count" CType.cInt).type.admits 7 :=
  ((c6_fields_arbitrary_int32 ⟨"count", .cInt⟩ (by decide)).2.2.2) 7
    (by decide) (by decide)

/-- C7: each of `OpaqueItem` (with its tag `_OpaqueItem`) and `gOpaqueValue`
is declared by exactly one item of the file, no item mutates either name,
and the `const`-qualified `gOpaqueValue` has value 7 throughout. -/
theorem c7_declared_once_never_mutated :
    (opaqueHeaderDecls.filter (fun d => d.declares "OpaqueItem")).length = 1 ∧
    (opaqueHeaderDecls.filter (fun d => d.declares "_OpaqueItem")).length = 1 ∧
    (opaqueHeaderDecls.filter (fun d => d.declares "gOpaqueValue")).length = 1 ∧
    opaqueHeaderDecls.all (fun d =>
      !(d.mutatesName "OpaqueItem") && !(d.mutatesName "gOpaqueValue")) ∧
    declaredValue opaqueHeaderDecls "gOpaqueValue" = some 7 := by
  decide

/-- C8: the file has no behavior — no function definitions, no executable
statements, no preprocessor directives, and no mutable (non-`const`)
variable; every item is a comment or a static declaration. -/
theorem c8_no_behavior :
    opaqueHeaderDecls.all (fun d =>
      !(d.isFuncDef) && !(d.isStmtItem) && !(CDecl.isDirective d)) ∧
    opaqueHeaderDecls.all (fun d =>
      d.isComment || d.isTypeDecl || (d.isVarDecl && d.isConstDecl)) := by
  decide

/-- C9: the first two lines of the file are the two `//` comment lines,
and the file's content strictly extends the six-line block of spec
section 6: it equals a nonempty text followed by that block. -/
theorem c9_comment_lines_extend_block :
    opaqueHeaderLines.take 2 =
      [ "// Non-HLSL helper header that should be ignored by the preprocessor."
      , "// Contains C-style declarations that are not valid HLSL." ] ∧
    ∃ p : String, p ≠ "" ∧ opaqueHeaderContent = p ++ specSection6Block :=
  ⟨by decide, leadingCommentText, by decide, by decide⟩

/-- C10: no line of the file begins with `#` — the file contains no
preprocessor directives at all. -/
theorem c10_no_directives :
    opaqueHeaderLines.all (fun l => !(isDirectiveLine l)) ∧
    (opaqueHeaderLines.filter isDirectiveLine) = [] := by
  decide
